import Mathlib

/-!
Verification of the m4vgalib scan-out driver core (src/vga.cc, src/vga.h).

The driver state and the interrupt handlers of vga.cc are shallowly embedded
as pure Lean functions over an explicit DriverState record.  Machine words
are modelled as Nat with explicit reduction modulo 2^32 (the ARMv7-M word)
and modulo 2^16 where the source casts to unsigned short.  Pixel buffers are
modelled as total functions from byte index to byte value.
-/

namespace Vga

/-- Modelled from the spec: sync polarity of a timing profile (the Timing
struct is declared in src/vga.h but defined in vga/timing.h, which is not
among the sources). -/
inductive Polarity where
  | positive
  | negative
  deriving DecidableEq, Repr

/-- Modelled from the spec: the Timing profile value describing one video
mode, with exactly the fields vga.cc reads.  In the hardware the line and
pixel fields are 16-bit quantities; that bound appears as a hypothesis where
a theorem needs it. -/
structure Timing where
  clock_config : Nat
  line_pixels : Nat
  sync_pixels : Nat
  back_porch_pixels : Nat
  video_lead : Nat
  video_pixels : Nat
  front_porch_pixels : Nat
  hsync_polarity : Polarity
  vsync_polarity : Polarity
  vsync_start_line : Nat
  vsync_end_line : Nat
  video_start_line : Nat
  video_end_line : Nat
  deriving DecidableEq, Repr

/-- Modelled from the spec: the Line Shape a rasterizer reports, a length in
bytes and a horizontal micro-offset (rasterizer.h is not among the sources). -/
structure LineShape where
  length : Nat
  offset : Int
  deriving DecidableEq, Repr

/-- The vertical timing state of vga.cc.  It is a Gray code and the bits
have meaning; see State.encoding below. -/
inductive State where
  | blank
  | starting
  | active
  | finishing
  deriving DecidableEq, Repr

/-- The numeric encoding of State from vga.cc: blank = 0b00,
starting = 0b01, active = 0b11, finishing = 0b10. -/
def State.encoding : State → Nat
  | State.blank => 0b00
  | State.starting => 0b01
  | State.active => 0b11
  | State.finishing => 0b10

/-- Should we be producing a video signal?  (vga.cc: bit mask 0b10.) -/
def is_displayed_state (s : State) : Bool :=
  s.encoding &&& 0b10 != 0

/-- Should we be rendering a scanline?  (vga.cc: bit mask 0b01.) -/
def is_rendered_state (s : State) : Bool :=
  s.encoding &&& 0b01 != 0

/-- The externally owned band list (struct Band of src/vga.h).  A null head
pointer is BandList.nil; a null rasterizer pointer is none; rasterizers are
identified by Nat tokens since the core treats them as opaque. -/
inductive BandList where
  | nil
  | band (rasterizer : Option Nat) (line_count : Nat) (next : BandList)
  deriving DecidableEq, Repr

/-- The by-value band snapshot current_band of vga.cc: a Band struct whose
next field points into the external list. -/
structure CurBand where
  rasterizer : Option Nat
  line_count : Nat
  next : BandList
  deriving DecidableEq, Repr

/-- Copying *band_list_head into current_band, with the null-head fallback
of end_of_active_video: an empty band { nullptr, 0, nullptr }. -/
def band_snapshot : BandList → CurBand
  | BandList.nil => ⟨none, 0, BandList.nil⟩
  | BandList.band r c n => ⟨r, c, n⟩

/-- Recursion core of get_next_rasterizer, structural on the band chain. -/
def gnr_list : Option Nat → Nat → BandList → Option Nat × CurBand
  | r, c, next =>
    if c ≠ 0 then (r, ⟨r, c - 1, next⟩)
    else
      match next with
      | BandList.nil => (none, ⟨r, c, BandList.nil⟩)
      | BandList.band r2 c2 n2 => gnr_list r2 c2 n2

/-- get_next_rasterizer from vga.cc: if current_band.line_count is nonzero,
decrement it and return its rasterizer; else advance current_band to
*current_band.next (by value) and retry; else return null. -/
def get_next_rasterizer (b : CurBand) : Option Nat × CurBand :=
  gnr_list b.rasterizer b.line_count b.next

/-- The registers of one general-purpose timer that configure_h_timer
writes. -/
structure GpTimerRegs where
  psc : Nat
  arr : Nat
  ccr1 : Nat
  ccr2 : Nat
  ccr3 : Nat
  cc1p : Bool
  deriving DecidableEq, Repr

/-- Reduction of an integer to an unsigned 32-bit machine word (Word). -/
def asWord (x : Int) : Nat := (x % 4294967296).toNat

/-- Reduction of an integer to an unsigned 16-bit value, the
static_cast to unsigned short in end_of_active_video. -/
def ushort (x : Int) : Nat := (x % 65536).toNat

/-- The global driver state of vga.cc, gathered into one record.  Pixel
buffers are byte-indexed functions; working_buffer is the 800-byte
working.buffer field (the guard pads around it are never read by the core
and are omitted). -/
structure DriverState where
  current_timing : Timing
  current_line : Nat
  state : State
  scan_buffer : Nat → Nat
  working_buffer : Nat → Nat
  working_buffer_shape : LineShape
  band_list_head : BandList
  current_band : CurBand
  band_list_taken : Bool
  tim3 : GpTimerRegs
  tim4 : GpTimerRegs
  ndtr : Nat
  dma_enabled : Bool
  vsync_out : Bool
  pendsv_pending : Bool

/-- configure_h_timer from vga.cc: the shared setup of TIM3 and TIM4.
Thresholds: CCR1 = sync, CCR2 = sync + back porch - video lead,
CCR3 = sync + back porch + visible pixels; ARR = line pixels - 1. -/
def configure_h_timer (timing : Timing) : GpTimerRegs :=
  { psc := 1
  , arr := asWord ((timing.line_pixels : Int) - 1)
  , ccr1 := asWord (timing.sync_pixels : Int)
  , ccr2 := asWord ((timing.sync_pixels : Int)
      + (timing.back_porch_pixels : Int) - (timing.video_lead : Int))
  , ccr3 := asWord ((timing.sync_pixels : Int)
      + (timing.back_porch_pixels : Int) + (timing.video_pixels : Int))
  , cc1p := match timing.hsync_polarity with
      | Polarity.positive => false
      | Polarity.negative => true }

/-- configure_timing from vga.cc, restricted to the state this model
tracks: both horizontal timers are programmed by configure_h_timer, then
the CC2 value of TIM3 is adjusted back in time by 7; the vsync output level
is set from the vsync polarity; the working buffer is scribbled with the
0xFF/0x00 pattern; the four pixels after the visible span of the scan
buffer are blanked; the line counter is reset to 0 and the timing stored.
The busy-wait for in-flight DMA ends with the stream disabled. -/
def configure_timing (timing : Timing) (st : DriverState) : DriverState :=
  { st with
    tim3 := { configure_h_timer timing with
      ccr2 := asWord (((configure_h_timer timing).ccr2 : Int) - 7) }
    tim4 := configure_h_timer timing
    dma_enabled := false
    vsync_out := match timing.vsync_polarity with
      | Polarity.positive => false
      | Polarity.negative => true
    working_buffer := fun i =>
      if i < 800 then (if i % 2 = 0 then 0xFF else 0x00)
      else st.working_buffer i
    scan_buffer := fun i =>
      if timing.video_pixels ≤ i ∧ i < timing.video_pixels + 4 then 0
      else st.scan_buffer i
    current_line := 0
    current_timing := timing }

/-- configure_band_list from vga.cc: install the head pointer and clear the
band-list-taken flag. -/
def configure_band_list (head : BandList) (st : DriverState) : DriverState :=
  { st with band_list_head := head, band_list_taken := false }

/-- The first two statements of end_of_active_video: write the CC2 value of
TIM4 from the timing profile and the offset the last rasterizer requested,
and pend a PendSV. -/
def hsync_correction (st : DriverState) : DriverState :=
  { st with
    tim4 := { st.tim4 with ccr2 := asWord ((st.current_timing.sync_pixels : Int)
        + (st.current_timing.back_porch_pixels : Int)
        - (st.current_timing.video_lead : Int)
        + st.working_buffer_shape.offset) }
    pendsv_pending := true }

/-- The vertical state machine chain of end_of_active_video: dispatch on
the previous line number, then store line + 1 (as a 32-bit word; the
finishing branch first sets line to the all-ones word so the store wraps
to 0). -/
def vsm_update (st : DriverState) : DriverState :=
  if st.current_line = 0 then
    { st with state := State.blank
            , current_line := (st.current_line + 1) % 4294967296 }
  else if st.current_line = st.current_timing.vsync_start_line
      ∨ st.current_line = st.current_timing.vsync_end_line then
    { st with vsync_out := !st.vsync_out
            , current_line := (st.current_line + 1) % 4294967296 }
  else if st.current_line = ushort ((st.current_timing.video_start_line : Int) - 1) then
    { st with state := State.starting
            , current_band := band_snapshot st.band_list_head
            , band_list_taken := true
            , current_line := (st.current_line + 1) % 4294967296 }
  else if st.current_line = st.current_timing.video_start_line then
    { st with state := State.active
            , current_line := (st.current_line + 1) % 4294967296 }
  else if st.current_line = ushort ((st.current_timing.video_end_line : Int) - 1) then
    { st with state := State.finishing
            , current_line := (4294967295 + 1) % 4294967296 }
  else
    { st with current_line := (st.current_line + 1) % 4294967296 }

/-- end_of_active_video from vga.cc: the hsync micro-offset correction and
the PendSV pend happen first, then the vertical state machine update. -/
def end_of_active_video (st : DriverState) : DriverState :=
  vsm_update (hsync_correction st)

/-- start_of_active_video from vga.cc: in displayed states only, clear the
stream flags and enable the DMA stream (register details abstracted to the
enable). -/
def start_of_active_video (st : DriverState) : DriverState :=
  if is_displayed_state st.state then { st with dma_enabled := true } else st

/-- Modelled from the spec: copy_words (vga/copy_words.h is not among the
sources) is a word-granularity bulk copy.  handoff_scan is the scan buffer
after the PendSV hand-off: the source first zeroes the word at word index
length / 4, then copies length / 4 words from the working buffer; the two
writes are disjoint, so bytewise the result is working bytes below
4 * (length / 4), four zero bytes after them, and the old contents
beyond. -/
def handoff_scan (st : DriverState) : Nat → Nat :=
  fun i =>
    if i < 4 * (st.working_buffer_shape.length / 4) then st.working_buffer i
    else if i < 4 * (st.working_buffer_shape.length / 4) + 4 then 0
    else st.scan_buffer i

/-- The first block of etl_armv7m_pend_sv_handler: in rendered states, flip
the working buffer into the scan buffer with a trailing zero word and write
the DMA transfer count NDTR = length / 4 + 1 words. -/
def pend_sv_handoff (st : DriverState) : DriverState :=
  if is_rendered_state st.state then
    { st with scan_buffer := handoff_scan st
            , ndtr := st.working_buffer_shape.length / 4 + 1 }
  else st

/-- A rasterizer environment: for a rasterizer token, a visible line index
and the current working buffer, the buffer contents and Line Shape its
rasterize call produces. -/
def RasterOracle : Type :=
  Nat → Nat → (Nat → Nat) → (Nat → Nat) × LineShape

/-- The second block of etl_armv7m_pend_sv_handler: in rendered states with
the line inside the visible vertical range, take the next rasterizer from
the band scheduler and, if one exists, rasterize into the working buffer
and store the returned shape. -/
def pend_sv_render (oracle : RasterOracle) (st : DriverState) : DriverState :=
  if is_rendered_state st.state then
    if st.current_timing.video_start_line ≤ st.current_line
        ∧ st.current_line ≤ st.current_timing.video_end_line then
      match get_next_rasterizer st.current_band with
      | (some r, b) =>
          { st with current_band := b
                  , working_buffer :=
                      (oracle r (st.current_line - st.current_timing.video_start_line)
                        st.working_buffer).1
                  , working_buffer_shape :=
                      (oracle r (st.current_line - st.current_timing.video_start_line)
                        st.working_buffer).2 }
      | (none, b) => { st with current_band := b }
    else st
  else st

/-- etl_armv7m_pend_sv_handler from vga.cc: the hand-off block, then the
hblank hook (whose default is a no-op and is modelled as such), then the
render block. -/
def etl_armv7m_pend_sv_handler (oracle : RasterOracle) (st : DriverState) :
    DriverState :=
  pend_sv_render oracle (pend_sv_handoff st)

/-- One interrupt arrival while a foreground wait idles in
wait_for_interrupt. -/
inductive IrqEvent where
  | endOfActive
  | startOfActive
  | pendSv
  deriving DecidableEq, Repr

/-- Dispatch of one interrupt event to its handler model. -/
def run_event (oracle : RasterOracle) : IrqEvent → DriverState → DriverState
  | IrqEvent.endOfActive => end_of_active_video
  | IrqEvent.startOfActive => start_of_active_video
  | IrqEvent.pendSv => etl_armv7m_pend_sv_handler oracle

/-- Running a whole sequence of interrupt events. -/
def run_events (oracle : RasterOracle) : List IrqEvent → DriverState → DriverState
  | [], st => st
  | e :: es, st => run_events oracle es (run_event oracle e st)

/-- The wait loop of clear_band_list: while the band-list-taken flag is
unset, idle (wait_for_interrupt, modelled as consuming the next interrupt
event); return the state once the flag is observed set.  The event list is
the interleaving supplied by the environment; none means the flag never
became true within it and the caller is still blocked. -/
def clear_wait_loop (oracle : RasterOracle) :
    List IrqEvent → DriverState → Option DriverState
  | [], st => if st.band_list_taken then some st else none
  | e :: es, st =>
    if st.band_list_taken then some st
    else clear_wait_loop oracle es (run_event oracle e st)

/-- clear_band_list from vga.cc: install the empty band list (null head,
taken flag cleared), then wait for the flag. -/
def clear_band_list (oracle : RasterOracle) (events : List IrqEvent)
    (st : DriverState) : Option DriverState :=
  clear_wait_loop oracle events (configure_band_list BandList.nil st)

/-!  Concrete fixtures used by witnesses and counterexamples. -/

/-- A rasterizer environment that leaves the buffer alone and reports a
zero shape. -/
def oracle0 : RasterOracle := fun _ _ buf => (buf, ⟨0, 0⟩)

/-- A small timing profile with video lines [2, 5) and vsync edges far away. -/
def t_base : Timing :=
  { clock_config := 0
  , line_pixels := 100
  , sync_pixels := 10
  , back_porch_pixels := 20
  , video_lead := 2
  , video_pixels := 60
  , front_porch_pixels := 10
  , hsync_polarity := Polarity.negative
  , vsync_polarity := Polarity.positive
  , vsync_start_line := 10
  , vsync_end_line := 11
  , video_start_line := 2
  , video_end_line := 5 }

/-- A base driver state over t_base. -/
def base_state : DriverState :=
  { current_timing := t_base
  , current_line := 3
  , state := State.active
  , scan_buffer := fun _ => 0
  , working_buffer := fun _ => 0
  , working_buffer_shape := ⟨8, 0⟩
  , band_list_head := BandList.nil
  , current_band := ⟨none, 0, BandList.nil⟩
  , band_list_taken := false
  , tim3 := ⟨0, 0, 0, 0, 0, false⟩
  , tim4 := ⟨0, 0, 0, 0, 0, false⟩
  , ndtr := 0
  , dma_enabled := false
  , vsync_out := false
  , pendsv_pending := false }

/-- The band list [(R1, 2) -> (R2, 1) -> nil] snapshotted into
current_band, and the three successor snapshots reached by the scheduler. -/
def cb0 : CurBand := ⟨some 1, 2, BandList.band (some 2) 1 BandList.nil⟩

/-- After one call on cb0. -/
def cb1 : CurBand := ⟨some 1, 1, BandList.band (some 2) 1 BandList.nil⟩

/-- After two calls on cb0. -/
def cb2 : CurBand := ⟨some 1, 0, BandList.band (some 2) 1 BandList.nil⟩

/-- After three calls on cb0: the scheduler has moved to the second band
and consumed its one line. -/
def cb3 : CurBand := ⟨some 2, 0, BandList.nil⟩

/-!  C5: band scheduler semantics and the exhaustion trace. -/

/-- C5: get_next_rasterizer decrements a positive line_count and returns the
rasterizer of the current band; with a zero count it advances by value to
*next and retries, or returns none when no next band exists; and on the
installed band list [(R1, 2) -> (R2, 1) -> nil] four successive calls
return R1, R1, R2, none, and a fifth call also returns none. -/
theorem c5_band_scheduler :
    (∀ b : CurBand, 0 < b.line_count →
      get_next_rasterizer b = (b.rasterizer, ⟨b.rasterizer, b.line_count - 1, b.next⟩))
    ∧ (∀ b : CurBand, b.line_count = 0 → b.next = BandList.nil →
      get_next_rasterizer b = (none, b))
    ∧ (∀ (b : CurBand) (r : Option Nat) (c : Nat) (rest : BandList),
      b.line_count = 0 → b.next = BandList.band r c rest →
      get_next_rasterizer b = get_next_rasterizer ⟨r, c, rest⟩)
    ∧ get_next_rasterizer cb0 = (some 1, cb1)
    ∧ get_next_rasterizer cb1 = (some 1, cb2)
    ∧ get_next_rasterizer cb2 = (some 2, cb3)
    ∧ get_next_rasterizer cb3 = (none, cb3)
    ∧ get_next_rasterizer cb3 = (none, cb3) := by
  refine ⟨?_, ?_, ?_, by decide, by decide, by decide, by decide, by decide⟩
  · rintro ⟨r, c, next⟩ hc
    cases c with
    | zero => exact absurd hc (by simp)
    | succ m =>
      show gnr_list r (m + 1) next = _
      rw [gnr_list.eq_def]
      simp
  · rintro ⟨r, c, next⟩ hc hn
    subst hc; subst hn
    show gnr_list r 0 BandList.nil = _
    rw [gnr_list.eq_def]
    simp
  · rintro ⟨r, c, next⟩ r2 c2 rest hc hn
    simp only at hc hn
    subst hc; subst hn
    show gnr_list r 0 (BandList.band r2 c2 rest) = _
    rw [gnr_list.eq_def]
    simp [get_next_rasterizer]

/-- Witness for C5 at the concrete head band: the first call on the
installed list returns R1 and decrements the count. -/
theorem c5_band_scheduler_witness :
    get_next_rasterizer cb0 = (cb0.rasterizer, ⟨cb0.rasterizer, cb0.line_count - 1, cb0.next⟩) :=
  c5_band_scheduler.1 cb0 (by decide)

/-!  Helper lemmas about the PendSV handler blocks. -/

/-- The hand-off block never touches the working buffer, its shape, or the
band snapshot. -/
lemma pend_sv_handoff_working (st : DriverState) :
    (pend_sv_handoff st).working_buffer = st.working_buffer
    ∧ (pend_sv_handoff st).working_buffer_shape = st.working_buffer_shape
    ∧ (pend_sv_handoff st).current_band = st.current_band
    ∧ (pend_sv_handoff st).state = st.state
    ∧ (pend_sv_handoff st).current_timing = st.current_timing
    ∧ (pend_sv_handoff st).current_line = st.current_line := by
  unfold pend_sv_handoff
  split <;> simp

/-- The render block never touches the scan buffer or the DMA transfer
count. -/
lemma pend_sv_render_scan (oracle : RasterOracle) (st : DriverState) :
    (pend_sv_render oracle st).scan_buffer = st.scan_buffer
    ∧ (pend_sv_render oracle st).ndtr = st.ndtr := by
  unfold pend_sv_render
  split
  · split
    · split <;> exact ⟨rfl, rfl⟩
    · exact ⟨rfl, rfl⟩
  · exact ⟨rfl, rfl⟩

/-!  C9: when the band scheduler yields nothing, the render step leaves the
working row and the stored line shape alone. -/

/-- C9: for every PendSV invocation in which the band scheduler returns
none, the working buffer contents and the stored line shape are unchanged,
so the last-rendered line repeats at subsequent hand-offs. -/
theorem c9_none_keeps_working (oracle : RasterOracle) (st : DriverState)
    (h : (get_next_rasterizer st.current_band).1 = none) :
    (etl_armv7m_pend_sv_handler oracle st).working_buffer = st.working_buffer
    ∧ (etl_armv7m_pend_sv_handler oracle st).working_buffer_shape
        = st.working_buffer_shape := by
  unfold etl_armv7m_pend_sv_handler
  obtain ⟨hw, hs, hb, _, _, _⟩ := pend_sv_handoff_working st
  unfold pend_sv_render
  rw [hb]
  rcases hg : get_next_rasterizer st.current_band with ⟨ro, b⟩
  rw [hg] at h
  cases ro with
  | none =>
    simp only [hg]
    split
    · split
      · exact ⟨hw, hs⟩
      · exact ⟨hw, hs⟩
    · exact ⟨hw, hs⟩
  | some r => simp at h

/-- Witness for C9: a driver state whose band snapshot is exhausted; the
handler leaves the working buffer and shape in place. -/
theorem c9_none_keeps_working_witness :
    (etl_armv7m_pend_sv_handler oracle0 base_state).working_buffer
        = base_state.working_buffer
    ∧ (etl_armv7m_pend_sv_handler oracle0 base_state).working_buffer_shape
        = base_state.working_buffer_shape :=
  c9_none_keeps_working oracle0 base_state rfl

/-!  C7: shape of the scan row and transfer count after a hand-off. -/

/-- C7: when the hand-off executes with a stored line shape of length len
(a multiple of the word size), the first len bytes of the scan row equal the
first len bytes of the working row, the word (four bytes) immediately after
them is zero, and the transfer engine count is len / 4 + 1 words, covering
exactly those len bytes plus the padding word. -/
theorem c7_handoff_copy (st : DriverState)
    (hmul : st.working_buffer_shape.length % 4 = 0)
    (hrend : is_rendered_state st.state = true) :
    (∀ i, i < st.working_buffer_shape.length →
      (pend_sv_handoff st).scan_buffer i = st.working_buffer i)
    ∧ (∀ i, st.working_buffer_shape.length ≤ i →
        i < st.working_buffer_shape.length + 4 →
        (pend_sv_handoff st).scan_buffer i = 0)
    ∧ (pend_sv_handoff st).ndtr = st.working_buffer_shape.length / 4 + 1 := by
  have h4 : 4 * (st.working_buffer_shape.length / 4)
      = st.working_buffer_shape.length := by omega
  have hps : pend_sv_handoff st
      = { st with scan_buffer := handoff_scan st
                , ndtr := st.working_buffer_shape.length / 4 + 1 } := by
    unfold pend_sv_handoff
    rw [hrend]
    simp
  rw [hps]
  refine ⟨?_, ?_, rfl⟩
  · intro i hi
    show handoff_scan st i = _
    simp only [handoff_scan]
    rw [if_pos (by omega)]
  · intro i hi1 hi2
    show handoff_scan st i = 0
    simp only [handoff_scan]
    rw [if_neg (by omega), if_pos (by omega)]

/-- Witness for C7 on a concrete 8-byte shape: bytes below 8 are copied,
bytes 8 to 11 are zero padding, and the transfer count is 3 words. -/
theorem c7_handoff_copy_witness :
    (pend_sv_handoff base_state).scan_buffer 5 = 0
    ∧ (pend_sv_handoff base_state).scan_buffer 9 = 0
    ∧ (pend_sv_handoff base_state).ndtr = 3 := by
  obtain ⟨hcopy, hzero, hn⟩ := c7_handoff_copy base_state (by decide) (by decide)
  exact ⟨(hcopy 5 (by decide)).trans rfl, hzero 9 (by decide) (by decide), hn⟩

/-!  C1: the hand-off guard.  The source guards the hand-off with
is_rendered_state (bit 0), not is_displayed_state (bit 1). -/

/-- A state in the starting phase: should-render holds, should-transmit
does not. -/
def st_starting : DriverState := { base_state with state := State.starting }

/-- A state in the finishing phase: should-transmit holds, should-render
does not. -/
def st_finishing : DriverState := { base_state with state := State.finishing }

/-- Counterexample to C1: in the starting state should-transmit is false
yet the PendSV handler performs the hand-off (the transfer count becomes
8 / 4 + 1 = 3), and in the finishing state should-transmit is true yet the
handler leaves the transfer count and scan row untouched. -/
theorem c1_counterexample :
    is_displayed_state State.starting = false
    ∧ (etl_armv7m_pend_sv_handler oracle0 st_starting).ndtr = 3
    ∧ st_starting.ndtr = 0
    ∧ is_displayed_state State.finishing = true
    ∧ (etl_armv7m_pend_sv_handler oracle0 st_finishing).ndtr = 0
    ∧ st_finishing.working_buffer_shape.length / 4 + 1 = 3 := by
  exact ⟨rfl, rfl, rfl, rfl, rfl, rfl⟩

/-- C1 amended: the PendSV hand-off (copy into the scan row and arming of
the transfer count) is performed exactly when the current vertical state
indicates should-render (is_rendered_state, bit 0 of the encoding), for
every vertical state. -/
theorem c1_amended_handoff_guard (oracle : RasterOracle) (st : DriverState) :
    (etl_armv7m_pend_sv_handler oracle st).ndtr
      = (if is_rendered_state st.state
         then st.working_buffer_shape.length / 4 + 1 else st.ndtr)
    ∧ (etl_armv7m_pend_sv_handler oracle st).scan_buffer
      = (if is_rendered_state st.state then handoff_scan st
         else st.scan_buffer) := by
  unfold etl_armv7m_pend_sv_handler
  obtain ⟨hscan, hndtr⟩ := pend_sv_render_scan oracle (pend_sv_handoff st)
  rw [hscan, hndtr]
  unfold pend_sv_handoff
  split <;> rename_i h <;> simp [h]

/-!  C8: the horizontal micro-offset correction on the end-of-visible
event. -/

/-- C8: on every end-of-visible-area event the start-of-visible trigger
time of TIM4 is set to sync + back porch - video lead + offset, where
offset is the micro-offset of the line shape stored by the last rasterizer,
and the whole event is the vertical state machine update applied after that
correction (the correction happens first and the state machine update never
rewrites the trigger). -/
theorem c8_offset_correction (st : DriverState) :
    (end_of_active_video st).tim4.ccr2
      = asWord ((st.current_timing.sync_pixels : Int)
          + (st.current_timing.back_porch_pixels : Int)
          - (st.current_timing.video_lead : Int)
          + st.working_buffer_shape.offset)
    ∧ end_of_active_video st = vsm_update (hsync_correction st) := by
  constructor
  · show (vsm_update (hsync_correction st)).tim4.ccr2 = _
    have h : ∀ s : DriverState, (vsm_update s).tim4 = s.tim4 := by
      intro s
      unfold vsm_update
      split
      · rfl
      split
      · rfl
      split
      · rfl
      split
      · rfl
      split <;> rfl
    rw [h]
    rfl
  · rfl

/-!  C2: the compare thresholds programmed at activation.  The shared
configure_h_timer step writes 10, 10 + 20 - lead, 10 + 20 + 60 to both
timers, but configure_timing then pulls the CC2 value of TIM3 back by 7,
so after activation only TIM4 holds 10 + 20 - lead. -/

/-- The timing profile of the C2 scenario, with the lead left free. -/
def c2_timing (lead : Nat) : Timing :=
  { clock_config := 0
  , line_pixels := 100
  , sync_pixels := 10
  , back_porch_pixels := 20
  , video_lead := lead
  , video_pixels := 60
  , front_porch_pixels := 10
  , hsync_polarity := Polarity.negative
  , vsync_polarity := Polarity.positive
  , vsync_start_line := 10
  , vsync_end_line := 11
  , video_start_line := 2
  , video_end_line := 5 }

/-- Counterexample to C2: with lead = 2 the claim requires both timers to
hold CC2 = 10 + 20 - 2 = 28 after activation, but TIM3 ends at 21 because
configure_timing subtracts 7 from its CC2 value after the shared setup. -/
theorem c2_counterexample :
    (configure_timing (c2_timing 2) base_state).tim4.ccr2 = 28
    ∧ (configure_timing (c2_timing 2) base_state).tim3.ccr2 = 21
    ∧ (21 : Nat) ≠ 10 + 20 - 2 := by
  exact ⟨rfl, rfl, by decide⟩

/-- C2 amended: for the profile total=100, sync=10, back porch=20,
visible=60, front porch=10, activation programs both timers with CCR1 = 10
and CCR3 = 10 + 20 + 60 = 90, programs TIM4 with CCR2 = 10 + 20 - lead, and
programs TIM3 with CCR2 = 10 + 20 - lead - 7 (its start-of-video compare is
pulled 7 pixels earlier than the shared value). -/
theorem c2_amended_thresholds (lead : Nat) (hlead : lead ≤ 23) (st : DriverState) :
    (configure_timing (c2_timing lead) st).tim4.ccr1 = 10
    ∧ (configure_timing (c2_timing lead) st).tim4.ccr2 = 10 + 20 - lead
    ∧ (configure_timing (c2_timing lead) st).tim4.ccr3 = 10 + 20 + 60
    ∧ (configure_timing (c2_timing lead) st).tim3.ccr1 = 10
    ∧ (configure_timing (c2_timing lead) st).tim3.ccr2 = 10 + 20 - lead - 7
    ∧ (configure_timing (c2_timing lead) st).tim3.ccr3 = 10 + 20 + 60 := by
  have h30 : ((10 : Int) + 20 - (lead : Int)) % 4294967296 = (30 - lead : Nat) := by
    omega
  refine ⟨rfl, ?_, rfl, rfl, ?_, rfl⟩
  · show asWord ((((c2_timing lead).sync_pixels : Int))
        + ((c2_timing lead).back_porch_pixels : Int)
        - ((c2_timing lead).video_lead : Int)) = _
    simp only [c2_timing, asWord]
    omega
  · show asWord ((asWord (((c2_timing lead).sync_pixels : Int)
        + ((c2_timing lead).back_porch_pixels : Int)
        - ((c2_timing lead).video_lead : Int)) : Int) - 7) = _
    simp only [c2_timing, asWord]
    omega

/-- Witness for C2 amended at lead = 2: TIM4 CC2 is 28 and TIM3 CC2 is 21. -/
theorem c2_amended_thresholds_witness :
    (configure_timing (c2_timing 2) base_state).tim4.ccr2 = 10 + 20 - 2
    ∧ (configure_timing (c2_timing 2) base_state).tim3.ccr2 = 10 + 20 - 2 - 7 :=
  ⟨(c2_amended_thresholds 2 (by decide) base_state).2.1,
   (c2_amended_thresholds 2 (by decide) base_state).2.2.2.2.1⟩

/-!  C10: the line counter range invariant.  The claim holds only when the
scheduled transitions cannot shadow the wrap branch; with
video_start_line = video_end_line - 1 the Active branch fires on the last
line and the counter escapes the range. -/

/-- A profile with video_start_line = 1 and video_end_line = 2, which the
claim admits (video_start_line < video_end_line) but which breaks the
range invariant. -/
def t10 : Timing :=
  { clock_config := 0
  , line_pixels := 100
  , sync_pixels := 10
  , back_porch_pixels := 20
  , video_lead := 2
  , video_pixels := 60
  , front_porch_pixels := 10
  , hsync_polarity := Polarity.negative
  , vsync_polarity := Polarity.positive
  , vsync_start_line := 100
  , vsync_end_line := 101
  , video_start_line := 1
  , video_end_line := 2 }

/-- The driver state right after activation of t10: line 0, blank. -/
def st10 : DriverState :=
  { base_state with current_timing := t10, current_line := 0, state := State.blank }

/-- Counterexample to C10: t10 satisfies video_start_line < video_end_line,
yet starting from line 0 the second end-of-visible event drives the counter
to 2 = video_end_line, leaving the claimed range [0, video_end_line).  (On
line 1 the Active branch, checked before the wrap branch, fires because
video_start_line = video_end_line - 1.) -/
theorem c10_counterexample :
    t10.video_start_line < t10.video_end_line
    ∧ st10.current_line = 0
    ∧ (end_of_active_video st10).current_line = 1
    ∧ (end_of_active_video (end_of_active_video st10)).current_line = 2
    ∧ ¬((end_of_active_video (end_of_active_video st10)).current_line
          < t10.video_end_line) := by
  exact ⟨by decide, rfl, by decide, by decide, by decide⟩

/-- The line counter written by the vertical state machine chain, as a
standalone arithmetic expression. -/
lemma vsm_update_current_line (st : DriverState) :
    (vsm_update st).current_line =
      (if st.current_line = 0 then (st.current_line + 1) % 4294967296
       else if st.current_line = st.current_timing.vsync_start_line
           ∨ st.current_line = st.current_timing.vsync_end_line then
         (st.current_line + 1) % 4294967296
       else if st.current_line = ushort ((st.current_timing.video_start_line : Int) - 1) then
         (st.current_line + 1) % 4294967296
       else if st.current_line = st.current_timing.video_start_line then
         (st.current_line + 1) % 4294967296
       else if st.current_line = ushort ((st.current_timing.video_end_line : Int) - 1) then
         (4294967295 + 1) % 4294967296
       else (st.current_line + 1) % 4294967296) := by
  unfold vsm_update
  split_ifs <;> rfl

/-- C10 amended: for every timing profile with
video_start_line + 1 < video_end_line, video_end_line at most 65535 and
neither vsync edge line equal to video_end_line - 1, every
end-of-visible-line event preserves current_line in [0, video_end_line);
and configure_timing establishes the initial counter 0. -/
theorem c10_amended_line_range (st : DriverState)
    (h1 : st.current_timing.video_start_line + 1 < st.current_timing.video_end_line)
    (h2 : st.current_timing.video_end_line ≤ 65535)
    (h3 : st.current_timing.vsync_start_line ≠ st.current_timing.video_end_line - 1)
    (h4 : st.current_timing.vsync_end_line ≠ st.current_timing.video_end_line - 1)
    (h5 : st.current_line < st.current_timing.video_end_line) :
    (end_of_active_video st).current_line < st.current_timing.video_end_line
    ∧ ∀ (t : Timing) (s : DriverState), (configure_timing t s).current_line = 0 := by
  refine ⟨?_, fun t s => rfl⟩
  show (vsm_update (hsync_correction st)).current_line < _
  rw [vsm_update_current_line (hsync_correction st)]
  have hcor : (hsync_correction st).current_line = st.current_line := rfl
  have hcot : (hsync_correction st).current_timing = st.current_timing := rfl
  rw [hcor, hcot]
  unfold ushort
  split_ifs <;> omega

/-- Witness for the amended C10 on the base profile at line 3: the event
keeps the counter below video_end_line = 5. -/
theorem c10_amended_line_range_witness :
    (end_of_active_video base_state).current_line
      < base_state.current_timing.video_end_line :=
  (c10_amended_line_range base_state (by decide) (by decide) (by decide)
    (by decide) (by decide)).1

/-!  C3: the end-of-visible-line event against the claim text. -/

/-- The components of the driver state that claim C3 speaks about. -/
structure VsmView where
  line : Nat
  state : State
  vsync_out : Bool
  current_band : CurBand
  band_list_taken : Bool
  band_list_head : BandList
  deriving DecidableEq, Repr

/-- Projection of the driver state onto the view of claim C3. -/
def vsm_view (st : DriverState) : VsmView :=
  ⟨st.current_line, st.state, st.vsync_out, st.current_band,
   st.band_list_taken, st.band_list_head⟩

/-- The update rule exactly as claim C3 words it: the cases are tested in
the listed order on the previous line number L, the thresholds
video_start_line - 1 and video_end_line - 1 are ordinary natural
subtractions, the line counter becomes L + 1 except in the wrap case, and
the Starting case snapshots the band-list head (or an empty band) and sets
the taken flag. -/
def c3_claim_step (t : Timing) (v : VsmView) : VsmView :=
  if v.line = 0 then
    { v with state := State.blank, line := v.line + 1 }
  else if v.line = t.vsync_start_line ∨ v.line = t.vsync_end_line then
    { v with vsync_out := !v.vsync_out, line := v.line + 1 }
  else if v.line = t.video_start_line - 1 then
    { v with state := State.starting
           , current_band := band_snapshot v.band_list_head
           , band_list_taken := true
           , line := v.line + 1 }
  else if v.line = t.video_start_line then
    { v with state := State.active, line := v.line + 1 }
  else if v.line = t.video_end_line - 1 then
    { v with state := State.finishing, line := 0 }
  else
    { v with line := v.line + 1 }

/-- C3: for every driver state whose line counter is inside its documented
range [0, video_end_line) and whose 16-bit profile fields are in range, one
end-of-visible-line event updates line, state, vsync output, band snapshot
and taken flag exactly as the claim describes. -/
theorem c3_vsm_event (st : DriverState)
    (hvsl : st.current_timing.video_start_line ≤ 65535)
    (hvel : st.current_timing.video_end_line ≤ 65535)
    (hline : st.current_line < st.current_timing.video_end_line) :
    vsm_view (end_of_active_video st)
      = c3_claim_step st.current_timing (vsm_view st) := by
  simp only [end_of_active_video, hsync_correction, vsm_update, vsm_view,
    c3_claim_step, ushort]
  split_ifs <;>
    first
      | rfl
      | (exfalso; omega)
      | (simp only [VsmView.mk.injEq, and_true, true_and]
         omega)

/-- Witness for C3 at the base state (line 3 of the base profile). -/
theorem c3_vsm_event_witness :
    vsm_view (end_of_active_video base_state)
      = c3_claim_step base_state.current_timing (vsm_view base_state) :=
  c3_vsm_event base_state (by decide) (by decide) (by decide)

/-!  C4: one frame of the vertical state machine. -/

/-- The state written by the vertical state machine chain, as a standalone
expression. -/
lemma vsm_update_state (st : DriverState) :
    (vsm_update st).state =
      (if st.current_line = 0 then State.blank
       else if st.current_line = st.current_timing.vsync_start_line
           ∨ st.current_line = st.current_timing.vsync_end_line then st.state
       else if st.current_line = ushort ((st.current_timing.video_start_line : Int) - 1) then
         State.starting
       else if st.current_line = st.current_timing.video_start_line then
         State.active
       else if st.current_line = ushort ((st.current_timing.video_end_line : Int) - 1) then
         State.finishing
       else st.state) := by
  unfold vsm_update
  split_ifs <;> rfl

/-- The vertical state machine chain never changes the stored timing. -/
lemma vsm_update_timing (st : DriverState) :
    (vsm_update st).current_timing = st.current_timing := by
  unfold vsm_update
  split_ifs <;> rfl

/-- One end-of-visible-line event under the non-degenerate profile
assumptions of C4: the line steps to its successor (wrapping on the last
line) and the state follows the scheduled transitions. -/
lemma eoav_char (st : DriverState) (t : Timing)
    (ht : st.current_timing = t)
    (h1 : 2 ≤ t.video_start_line)
    (h2 : t.video_start_line + 1 < t.video_end_line)
    (h3 : t.video_end_line ≤ 65535)
    (hvsa : t.vsync_start_line ≠ t.video_start_line - 1)
    (hvsb : t.vsync_start_line ≠ t.video_start_line)
    (hvsc : t.vsync_start_line ≠ t.video_end_line - 1)
    (hvea : t.vsync_end_line ≠ t.video_start_line - 1)
    (hveb : t.vsync_end_line ≠ t.video_start_line)
    (hvec : t.vsync_end_line ≠ t.video_end_line - 1)
    (hline : st.current_line < t.video_end_line) :
    (end_of_active_video st).current_timing = t
    ∧ (end_of_active_video st).current_line
        = (if st.current_line = t.video_end_line - 1 then 0 else st.current_line + 1)
    ∧ (end_of_active_video st).state
        = (if st.current_line = 0 then State.blank
           else if st.current_line = t.video_start_line - 1 then State.starting
           else if st.current_line = t.video_start_line then State.active
           else if st.current_line = t.video_end_line - 1 then State.finishing
           else st.state) := by
  subst ht
  have hcor : (hsync_correction st).current_line = st.current_line := rfl
  have hcot : (hsync_correction st).current_timing = st.current_timing := rfl
  have hcos : (hsync_correction st).state = st.state := rfl
  refine ⟨?_, ?_, ?_⟩
  · show (vsm_update (hsync_correction st)).current_timing = _
    rw [vsm_update_timing, hcot]
  · show (vsm_update (hsync_correction st)).current_line = _
    rw [vsm_update_current_line, hcor, hcot]
    unfold ushort
    split_ifs <;> omega
  · show (vsm_update (hsync_correction st)).state = _
    rw [vsm_update_state, hcor, hcot, hcos]
    unfold ushort
    split_ifs <;> first | rfl | (exfalso; omega)

/-- C4: starting from line 0 in state Blank, running the machine for
exactly total_lines = video_end_line end-of-visible events visits Blank,
Starting, Active, Finishing in order, entering each phase exactly once per
cycle (the full trajectory is characterized, with the wrap back to line 0
after the last event); and the is_rendered and is_displayed predicates
equal bit 0 and bit 1 of the state encoding, holding exactly for
{Starting, Active} and {Active, Finishing} respectively. -/
theorem c4_frame_cycle (t : Timing) (st : DriverState)
    (ht : st.current_timing = t)
    (hl : st.current_line = 0)
    (hs : st.state = State.blank)
    (h1 : 2 ≤ t.video_start_line)
    (h2 : t.video_start_line + 1 < t.video_end_line)
    (h3 : t.video_end_line ≤ 65535)
    (hvsa : t.vsync_start_line ≠ t.video_start_line - 1)
    (hvsb : t.vsync_start_line ≠ t.video_start_line)
    (hvsc : t.vsync_start_line ≠ t.video_end_line - 1)
    (hvea : t.vsync_end_line ≠ t.video_start_line - 1)
    (hveb : t.vsync_end_line ≠ t.video_start_line)
    (hvec : t.vsync_end_line ≠ t.video_end_line - 1) :
    (∀ n, n ≤ t.video_end_line →
      (end_of_active_video^[n] st).current_line
          = (if n = t.video_end_line then 0 else n)
      ∧ (end_of_active_video^[n] st).state
          = (if n < t.video_start_line then State.blank
             else if n = t.video_start_line then State.starting
             else if n < t.video_end_line then State.active
             else State.finishing))
    ∧ (∀ s : State,
        (is_rendered_state s = true ↔ (s = State.starting ∨ s = State.active))
        ∧ is_rendered_state s = decide (s.encoding % 2 = 1)
        ∧ (is_displayed_state s = true ↔ (s = State.active ∨ s = State.finishing))
        ∧ is_displayed_state s = decide (s.encoding / 2 % 2 = 1)) := by
  constructor
  · have key : ∀ n, n ≤ t.video_end_line →
        (end_of_active_video^[n] st).current_timing = t
        ∧ (end_of_active_video^[n] st).current_line
            = (if n = t.video_end_line then 0 else n)
        ∧ (end_of_active_video^[n] st).state
            = (if n < t.video_start_line then State.blank
               else if n = t.video_start_line then State.starting
               else if n < t.video_end_line then State.active
               else State.finishing) := by
      intro n
      induction n with
      | zero =>
        intro _
        simp only [Function.iterate_zero, id]
        refine ⟨ht, ?_, ?_⟩
        · rw [hl, if_neg (by omega)]
        · rw [hs, if_pos (by omega)]
      | succ k ih =>
        intro hk1
        have hklt : k < t.video_end_line := by omega
        obtain ⟨iht, ihl, ihs⟩ := ih (by omega)
        rw [Function.iterate_succ_apply']
        have hlk : (end_of_active_video^[k] st).current_line = k := by
          rw [ihl, if_neg (by omega)]
        obtain ⟨ct, cl, cs⟩ := eoav_char (end_of_active_video^[k] st) t iht
          h1 h2 h3 hvsa hvsb hvsc hvea hveb hvec (by omega)
        refine ⟨ct, ?_, ?_⟩
        · rw [cl, hlk]
          split_ifs <;> omega
        · rw [cs, hlk, ihs]
          split_ifs <;> first | rfl | (exfalso; omega)
    exact fun n hn => ⟨(key n hn).2.1, (key n hn).2.2⟩
  · intro s
    cases s <;> exact ⟨by decide, by decide, by decide, by decide⟩

/-- The driver state at frame start over the base profile: line 0, blank. -/
def st_frame_start : DriverState :=
  { base_state with current_line := 0, state := State.blank }

/-- Witness for C4 on the base profile (video lines [2, 5)): after five
events the machine is back at line 0 in the Finishing phase, and the
predicates hold of Active. -/
theorem c4_frame_cycle_witness :
    (end_of_active_video^[5] st_frame_start).current_line = 0
    ∧ (end_of_active_video^[5] st_frame_start).state = State.finishing
    ∧ is_rendered_state State.active = true
    ∧ is_displayed_state State.active = true := by
  have h := c4_frame_cycle t_base st_frame_start rfl rfl rfl (by decide)
    (by decide) (by decide) (by decide) (by decide) (by decide) (by decide)
    (by decide) (by decide)
  obtain ⟨hline, hstate⟩ := h.1 5 (by decide)
  refine ⟨?_, ?_, (h.2 State.active).1.mpr (Or.inr rfl),
    (h.2 State.active).2.2.1.mpr (Or.inl rfl)⟩
  · rw [hline]
    decide
  · rw [hstate]
    decide

/-!  C6: the clear_band_list hand-back protocol. -/

/-- The wait loop of clear_band_list returns exactly at the first moment
the taken flag is observed true: a successful return is the state after
the shortest event prefix whose endpoint has the flag set, with the flag
unset at every strictly earlier prefix; and if the flag stays unset along
the whole event list the loop does not return. -/
lemma clear_wait_loop_spec (oracle : RasterOracle) :
    ∀ (events : List IrqEvent) (s : DriverState),
      (∀ s', clear_wait_loop oracle events s = some s' →
        s'.band_list_taken = true
        ∧ ∃ j, j ≤ events.length
            ∧ s' = run_events oracle (events.take j) s
            ∧ ∀ i, i < j →
                (run_events oracle (events.take i) s).band_list_taken = false)
      ∧ ((∀ i, i ≤ events.length →
            (run_events oracle (events.take i) s).band_list_taken = false) →
          clear_wait_loop oracle events s = none) := by
  intro events
  induction events with
  | nil =>
    intro s
    constructor
    · intro s' h
      unfold clear_wait_loop at h
      by_cases hb : s.band_list_taken
      · rw [if_pos hb] at h
        obtain rfl : s = s' := by injection h
        exact ⟨hb, 0, by omega, rfl, fun i hi => absurd hi (by omega)⟩
      · rw [if_neg hb] at h
        exact absurd h (by simp)
    · intro hall
      unfold clear_wait_loop
      have hb : s.band_list_taken = false := by
        simpa [run_events] using hall 0 (by simp)
      rw [if_neg (by simp [hb])]
  | cons e es ih =>
    intro s
    constructor
    · intro s' h
      unfold clear_wait_loop at h
      by_cases hb : s.band_list_taken
      · rw [if_pos hb] at h
        obtain rfl : s = s' := by injection h
        exact ⟨hb, 0, by omega, rfl, fun i hi => absurd hi (by omega)⟩
      · rw [if_neg hb] at h
        obtain ⟨ht, j, hj, hs', hfalse⟩ := (ih (run_event oracle e s)).1 s' h
        have hb' : s.band_list_taken = false := by
          revert hb
          cases s.band_list_taken <;> simp
        refine ⟨ht, j + 1, by simpa using hj, ?_, ?_⟩
        · simpa [List.take_succ_cons, run_events] using hs'
        · intro i hi
          cases i with
          | zero => simpa [run_events] using hb'
          | succ i2 =>
            simpa [List.take_succ_cons, run_events] using hfalse i2 (by omega)
    · intro hall
      unfold clear_wait_loop
      have hb : s.band_list_taken = false := by
        simpa [run_events] using hall 0 (by simp)
      rw [if_neg (by simp [hb])]
      apply (ih (run_event oracle e s)).2
      intro i hi
      simpa [List.take_succ_cons, run_events] using hall (i + 1) (by simpa using hi)

/-- C6: clear_band_list first installs the empty band list (null head,
taken flag cleared) and then, for an arbitrary interleaving of handler
executions, returns exactly at the first false-to-true transition of the
taken flag: any returned state has the flag true, is reached by the
shortest event prefix with the flag set, and the flag was false at every
earlier prefix (in particular right after installation); if no event sets
the flag, the call does not return and keeps idling. -/
theorem c6_clear_band_list (oracle : RasterOracle) (events : List IrqEvent)
    (st : DriverState) :
    (configure_band_list BandList.nil st).band_list_head = BandList.nil
    ∧ (configure_band_list BandList.nil st).band_list_taken = false
    ∧ (∀ s', clear_band_list oracle events st = some s' →
        s'.band_list_taken = true
        ∧ ∃ j, j ≤ events.length
            ∧ s' = run_events oracle (events.take j)
                (configure_band_list BandList.nil st)
            ∧ ∀ i, i < j →
                (run_events oracle (events.take i)
                  (configure_band_list BandList.nil st)).band_list_taken = false)
    ∧ ((∀ i, i ≤ events.length →
          (run_events oracle (events.take i)
            (configure_band_list BandList.nil st)).band_list_taken = false) →
        clear_band_list oracle events st = none) := by
  refine ⟨rfl, rfl, ?_, ?_⟩
  · intro s' h
    exact (clear_wait_loop_spec oracle events
      (configure_band_list BandList.nil st)).1 s' h
  · intro hall
    exact (clear_wait_loop_spec oracle events
      (configure_band_list BandList.nil st)).2 hall

/-- A foreground state one line before the Starting transition of the base
profile: the next end-of-visible event snapshots the band list and sets the
taken flag. -/
def st_clear : DriverState := { base_state with current_line := 1 }

/-- Witness for C6: on the concrete interleaving with one end-of-visible
event at line 1 (= video_start_line - 1), clear_band_list returns and the
returned state has the taken flag set. -/
theorem c6_clear_band_list_witness :
    (run_events oracle0 [IrqEvent.endOfActive]
        (configure_band_list BandList.nil st_clear)).band_list_taken = true :=
  ((c6_clear_band_list oracle0 [IrqEvent.endOfActive] st_clear).2.2.1
    (run_events oracle0 [IrqEvent.endOfActive]
      (configure_band_list BandList.nil st_clear)) rfl).1

end Vga
